import Mathlib

/- Verification of the sandboxed 2D game engine runtime and its LeapGuard
   health-monitoring subsystem.  The definitions below are a shallow
   embedding of the JavaScript source: machine numbers are modelled as
   rationals (reals where the claim is about the pow formula), JS objects
   become Lean structures, nullable values become Option, and the mutable
   engine globals become an explicit EngineState threaded through the
   operations.  Randomness (Math.random) is modelled as an explicit input. -/

/- ===================== Sprites and physics (Physics2D.ts, Engine2D.ts) ===================== -/

/- A live 2D sprite record, mirroring the default object built by
   Engine.create.sprite.  The radius field is not among the defaults (it is
   undefined unless supplied through the config spread), hence an Option. -/
structure Sprite where
  id : ℚ
  name : String
  x : ℚ
  y : ℚ
  width : ℚ
  height : ℚ
  imageUrl : Option String
  color : String
  type : String
  rotation : ℚ
  vx : ℚ
  vy : ℚ
  ax : ℚ
  ay : ℚ
  drag : ℚ
  clampToScreen : Bool
  clipX : ℚ
  clipY : ℚ
  clipWidth : Option ℚ
  clipHeight : Option ℚ
  radius : Option ℚ
deriving DecidableEq

/- physics.checkCollision: AABB test on center-based coordinates.  The JS
   guard `if (!spriteA || !spriteB) return false` is modelled by taking
   Option arguments (a falsy object argument is null or undefined). -/
def checkCollision : Option Sprite → Option Sprite → Bool
  | some spriteA, some spriteB =>
    let a_left := spriteA.x - spriteA.width / 2
    let a_right := spriteA.x + spriteA.width / 2
    let a_top := spriteA.y - spriteA.height / 2
    let a_bottom := spriteA.y + spriteA.height / 2
    let b_left := spriteB.x - spriteB.width / 2
    let b_right := spriteB.x + spriteB.width / 2
    let b_top := spriteB.y - spriteB.height / 2
    let b_bottom := spriteB.y + spriteB.height / 2
    decide (a_left < b_right ∧ a_right > b_left ∧ a_top < b_bottom ∧ a_bottom > b_top)
  | _, _ => false

/- The radius used by checkCircularCollision: `spriteA.radius || (min(w,h)/2)`.
   A radius of 0 is falsy in JS, so it also falls back to the size-derived
   radius. -/
def effRadius (s : Sprite) : ℚ :=
  match s.radius with
  | some r => if r = 0 then min s.width s.height / 2 else r
  | none => min s.width s.height / 2

/- physics.checkCircularCollision: distance between centers strictly less
   than the sum of the radii.  Math.sqrt on a nonnegative argument is
   Real.sqrt, so the test lives in Prop over ℝ. -/
def checkCircularCollision : Option Sprite → Option Sprite → Prop
  | some spriteA, some spriteB =>
    let dx : ℝ := ((spriteA.x - spriteB.x : ℚ) : ℝ)
    let dy : ℝ := ((spriteA.y - spriteB.y : ℚ) : ℝ)
    Real.sqrt (dx * dx + dy * dy) < ((effRadius spriteA + effRadius spriteB : ℚ) : ℝ)
  | _, _ => False

/- ===================== Engine state (Engine2D.ts) ===================== -/

/- The single per-frame user callback.  resetSceneState installs a fresh
   no-op closure (the default); Engine.onUpdate installs a user callback,
   identified here by an opaque tag. -/
inductive UpdateCb where
  | default
  | user (tag : ℕ)
deriving DecidableEq

structure Camera where
  x : ℚ
  y : ℚ
  shakeIntensity : ℚ
  shakeDuration : ℚ
deriving DecidableEq

/- The camera record as (re)initialized by resetSceneState. -/
def initCamera : Camera := { x := 0, y := 0, shakeIntensity := 0, shakeDuration := 0 }

structure Particle where
  x : ℚ
  y : ℚ
  vx : ℚ
  vy : ℚ
  life : ℚ
  color : String
  size : ℚ
deriving DecidableEq

/- Caller-supplied config for Engine.create.sprite; absent properties are
   none and fall back to the defaults in mkSprite. -/
structure SpriteConfig where
  id : Option ℚ := none
  name : Option String := none
  x : Option ℚ := none
  y : Option ℚ := none
  width : Option ℚ := none
  height : Option ℚ := none
  imageUrl : Option String := none
  color : Option String := none
  type : Option String := none
  rotation : Option ℚ := none
  vx : Option ℚ := none
  vy : Option ℚ := none
  ax : Option ℚ := none
  ay : Option ℚ := none
  drag : Option ℚ := none
  clampToScreen : Option Bool := none
  clipX : Option ℚ := none
  clipY : Option ℚ := none
  clipWidth : Option ℚ := none
  clipHeight : Option ℚ := none
  radius : Option ℚ := none
deriving DecidableEq

/- The spriteData object of Engine.create.sprite: defaults overridden by the
   spread config.  rnd stands for the Math.random() draw used as default id. -/
def mkSprite (rnd : ℚ) (cfg : SpriteConfig) : Sprite where
  id := cfg.id.getD rnd
  name := cfg.name.getD "unnamed"
  x := cfg.x.getD 0
  y := cfg.y.getD 0
  width := cfg.width.getD 32
  height := cfg.height.getD 32
  imageUrl := cfg.imageUrl
  color := cfg.color.getD "white"
  type := cfg.type.getD "game"
  rotation := cfg.rotation.getD 0
  vx := cfg.vx.getD 0
  vy := cfg.vy.getD 0
  ax := cfg.ax.getD 0
  ay := cfg.ay.getD 0
  drag := cfg.drag.getD 0
  clampToScreen := cfg.clampToScreen.getD false
  clipX := cfg.clipX.getD 0
  clipY := cfg.clipY.getD 0
  clipWidth := cfg.clipWidth
  clipHeight := cfg.clipHeight
  radius := cfg.radius

/- Caller-supplied config for Engine.create.particles, with the source
   destructuring defaults x=0, y=0, count=10, color=orange, size=2, life=0.5
   applied in runCmd. -/
structure ParticleConfig where
  x : Option ℚ := none
  y : Option ℚ := none
  count : Option ℕ := none
  color : Option String := none
  size : Option ℚ := none
  life : Option ℚ := none

/- A scene setup function is modelled as the sequence of engine calls it
   performs: the creation and registration effects that populate a freshly
   reset scene.  Each Math.random() draw the engine would make is carried
   explicitly (rnd for the sprite id, draws for the particle velocities and
   life). -/
inductive SceneCmd where
  | createSprite (rnd : ℚ) (cfg : SpriteConfig)
  | createParticles (cfg : ParticleConfig) (draws : ℕ → ℚ × ℚ × ℚ)
  | setOnUpdate (tag : ℕ)

/- The mutable module-level engine globals of Engine2D.ts. -/
structure EngineState where
  sprites : List Sprite
  particles : List Particle
  onUpdateCallback : UpdateCb
  camera : Camera
  dataStore : List (String × ℕ)
  scenes : List (String × List SceneCmd)

/- Engine.setData: Map.set, modelled as a cons whose entry shadows older
   bindings under lookup. -/
def setData (k : String) (v : ℕ) (st : EngineState) : EngineState :=
  { st with dataStore := (k, v) :: st.dataStore }

/- Engine.getData: Map.get. -/
def getData (k : String) (st : EngineState) : Option ℕ :=
  st.dataStore.lookup k

/- The destroy closure captured by a sprite instance:
   sprites = sprites.filter(s => s.id !== spriteData.id). -/
def destroySprite (i : ℚ) (st : EngineState) : EngineState :=
  { st with sprites := st.sprites.filter (fun s => decide (s.id ≠ i)) }

/- Engine.create.sprite: builds the sprite record and appends it to the live
   registry, returning the instance. -/
def createSprite (rnd : ℚ) (cfg : SpriteConfig) (st : EngineState) : EngineState × Sprite :=
  let s := mkSprite rnd cfg
  ({ st with sprites := st.sprites ++ [s] }, s)

/- One particle as pushed by Engine.create.particles, with d the triple of
   Math.random() draws for this particle. -/
def mkParticle (cfg : ParticleConfig) (d : ℚ × ℚ × ℚ) : Particle where
  x := cfg.x.getD 0
  y := cfg.y.getD 0
  vx := (d.1 - 1/2) * 150
  vy := (d.2.1 - 1/2) * 150
  life := d.2.2 * cfg.life.getD (1/2)
  color := cfg.color.getD "orange"
  size := cfg.size.getD 2

/- Engine.create.particles: pushes count particles. -/
def createParticles (cfg : ParticleConfig) (draws : ℕ → ℚ × ℚ × ℚ) (st : EngineState) : EngineState :=
  { st with particles := st.particles ++ (List.range (cfg.count.getD 10)).map (fun i => mkParticle cfg (draws i)) }

/- Engine.onUpdate. -/
def setOnUpdate (tag : ℕ) (st : EngineState) : EngineState :=
  { st with onUpdateCallback := UpdateCb.user tag }

/- Interpreter for one engine call made by a scene setup function. -/
def runCmd (st : EngineState) : SceneCmd → EngineState
  | SceneCmd.createSprite rnd cfg => (createSprite rnd cfg st).1
  | SceneCmd.createParticles cfg draws => createParticles cfg draws st
  | SceneCmd.setOnUpdate tag => setOnUpdate tag st

/- Running a whole setup function body. -/
def runCmds (st : EngineState) (cmds : List SceneCmd) : EngineState :=
  cmds.foldl runCmd st

/- resetSceneState from Engine2D.ts: clears sprites, particles, the update
   callback and the camera.  The data store and the scene registry are NOT
   touched. -/
def resetSceneState (st : EngineState) : EngineState :=
  { st with sprites := [], particles := [], onUpdateCallback := UpdateCb.default, camera := initCamera }

/- Console messages emitted by engine operations. -/
inductive LogLevel where
  | log
  | warn
  | error
deriving DecidableEq

structure ConsoleMsg where
  level : LogLevel
  message : String
deriving DecidableEq

/- Engine.scene.define: scenes[name] = setupFunc (newer binding shadows). -/
def defineScene (name : String) (cmds : List SceneCmd) (st : EngineState) : EngineState :=
  { st with scenes := (name, cmds) :: st.scenes }

/- Engine.scene.load: on a defined name, reset the scene state and run the
   setup function; on an undefined name, log an error and change nothing. -/
def loadScene (name : String) (st : EngineState) : EngineState × List ConsoleMsg :=
  match st.scenes.lookup name with
  | some cmds =>
    (runCmds (resetSceneState st) cmds, [{ level := LogLevel.log, message := "Scene '" ++ name ++ "' loaded." }])
  | none =>
    (st, [{ level := LogLevel.error, message := "Scene '" ++ name ++ "' is not defined." }])

/- The sprites a setup function creates, in creation order. -/
def cmdSprites : List SceneCmd → List Sprite
  | [] => []
  | SceneCmd.createSprite rnd cfg :: rest => mkSprite rnd cfg :: cmdSprites rest
  | _ :: rest => cmdSprites rest

/- The particles a setup function creates, in creation order. -/
def cmdParticles : List SceneCmd → List Particle
  | [] => []
  | SceneCmd.createParticles cfg draws :: rest =>
    (List.range (cfg.count.getD 10)).map (fun i => mkParticle cfg (draws i)) ++ cmdParticles rest
  | _ :: rest => cmdParticles rest

/- The update callback left registered by a setup function (the last one it
   registers, or the default no-op). -/
def cmdCallback (init : UpdateCb) : List SceneCmd → UpdateCb
  | [] => init
  | SceneCmd.setOnUpdate tag :: rest => cmdCallback (UpdateCb.user tag) rest
  | _ :: rest => cmdCallback init rest

/- ===================== LeapGuard core (debugger.ts) ===================== -/

/- The deterministic fields of a reportIncident call / posted payload.  The
   generated id, timestamp and captured stack are impure environment values
   carrying no information about the dedup behaviour, so they are omitted. -/
structure IncidentMsg where
  threatLevel : String
  suspect : String
  message : String
deriving DecidableEq

/- The rolling dedup set _incidents.  A JS Set iterates in insertion order,
   so it is modelled as a duplicate-free list with the oldest entry first. -/
structure GuardState where
  incidents : List String
deriving DecidableEq

/- The dedup key: the string concatenation threatLevel + suspect + message. -/
def incidentHash (threatLevel suspect message : String) : String :=
  threatLevel ++ suspect ++ message

/- leapGuardCore.reportIncident: returns the updated guard state and the
   list of payloads posted to the host by this call (empty or a
   singleton). -/
def reportIncident (st : GuardState) (threatLevel suspect message : String) :
    GuardState × List IncidentMsg :=
  let h := incidentHash threatLevel suspect message
  if h ∈ st.incidents then
    (st, [])
  else
    let added := st.incidents ++ [h]
    let trimmed := if added.length > 100 then added.tail else added
    ({ incidents := trimmed },
     [{ threatLevel := threatLevel, suspect := suspect, message := message }])

/- A thrown JS error value: stack and message, either possibly absent or
   empty (both falsy under the || chain that builds errorMessage). -/
structure JsError where
  stack : Option String
  message : String
deriving DecidableEq

/- The errorMessage computed in the catch branch of instrument:
   error.stack || error.message. -/
def errorMessageOf (e : JsError) : String :=
  match e.stack with
  | some s => if s = "" then e.message else s
  | none => e.message

/- leapGuardCore.instrument(functionName, originalFn): a JS function that
   may throw is an α → Except JsError β.  The wrapper returns the same
   outcome as the original (the error is re-thrown) together with the list
   of reportIncident calls it makes. -/
def instrument {α β : Type} (functionName : String) (originalFn : α → Except JsError β)
    (args : α) : Except JsError β × List IncidentMsg :=
  match originalFn args with
  | Except.ok v => (Except.ok v, [])
  | Except.error e =>
    (Except.error e,
     [{ threatLevel := "trusted",
        suspect := "Exception in " ++ functionName,
        message := errorMessageOf e }])

/- ===================== Safety protocol (safetyProtocol.ts) ===================== -/

/- evidence.context of a quarantined incident, as read by quarantineAction. -/
structure QContext where
  id : Option ℚ
deriving DecidableEq

structure QEvidence where
  context : Option QContext
deriving DecidableEq

/- The incident payload received with a quarantine-incident message. -/
structure QIncident where
  suspect : String
  message : String
  evidence : Option QEvidence
deriving DecidableEq

/- JS truthiness of the optional numeric id: undefined and 0 are falsy. -/
def truthyId : Option ℚ → Bool
  | some q => decide (q ≠ 0)
  | none => false

/- Mutation of the found sprite instance (targetSprite.vx = 0 etc.): the
   first registry entry with the target id is replaced. -/
def updateFirstSprite (i : ℚ) (f : Sprite → Sprite) : List Sprite → List Sprite
  | [] => []
  | s :: rest => if s.id = i then f s :: rest else s :: updateFirstSprite i f rest

/- quarantineAction for the 2D engine branch: validates the incident shape,
   resolves the target sprite by context.id against the live registry, and
   dispatches on incident.suspect.  A missing target is a no-op.  Returns
   the new engine state and the console messages logged. -/
def quarantineAction (inc : Option QIncident) (st : EngineState) : EngineState × List ConsoleMsg :=
  match inc with
  | none => (st, [{ level := LogLevel.warn, message := "[LeapGuard] Quarantine failed: Invalid incident data received." }])
  | some i =>
    if i.suspect = "" then
      (st, [{ level := LogLevel.warn, message := "[LeapGuard] Quarantine failed: Invalid incident data received." }])
    else
      match i.evidence with
      | none => (st, [{ level := LogLevel.warn, message := "[LeapGuard] Quarantine failed: Invalid incident data received." }])
      | some ev =>
        match ev.context with
        | none => (st, [{ level := LogLevel.warn, message := "[LeapGuard] Quarantine failed: Invalid incident data received." }])
        | some ctx =>
          let targetSprite :=
            if truthyId ctx.id then
              st.sprites.find? (fun s => decide (some s.id = ctx.id))
            else
              none
          match targetSprite with
          | none =>
            (st, [{ level := LogLevel.log, message := "[LeapGuard Protocol] Incident: \"" ++ i.message ++ "\". Quarantine Result: No action taken." }])
          | some t =>
            let result : EngineState × String :=
              if i.suspect = "Data Integrity Check" then
                (destroySprite t.id st, "Destroyed sprite '" ++ t.name ++ "' due to data corruption (NaN).")
              else if i.suspect = "Position Check" then
                (destroySprite t.id st, "Destroyed sprite '" ++ t.name ++ "' for being out of bounds.")
              else if i.suspect = "Velocity Check" then
                ({ st with sprites := updateFirstSprite t.id (fun s => { s with vx := 0, vy := 0 }) st.sprites },
                 "Reset velocity of sprite '" ++ t.name ++ "'.")
              else
                (destroySprite t.id st, "Performed generic quarantine on sprite '" ++ t.name ++ "' by destroying it.")
            (result.1, [{ level := LogLevel.log, message := "[LeapGuard Protocol] Incident: \"" ++ i.message ++ "\". Quarantine Result: " ++ result.2 }])

/- ===================== Frame loop delta time (Renderer2D.ts) ===================== -/

/- The JS || operator on a finite number: the left operand unless it is
   zero (over the rationals there is no NaN; a NaN difference cannot arise
   from finite timestamps). -/
def jsOrElse (x y : ℚ) : ℚ :=
  if x = 0 then y else x

/- The module-level initialization `let lastTime = 0` in Engine2D.ts. -/
def lastTimeInit : ℚ := 0

/- The first line of gameLoop:
   const deltaTime = (timestamp - lastTime) / 1000 || 0. -/
def gameLoopDelta (timestamp lastTime : ℚ) : ℚ :=
  jsOrElse ((timestamp - lastTime) / 1000) 0

/- ===================== Drag integration (Renderer2D.ts) ===================== -/

/- The per-frame drag factor Math.pow(1 - drag, deltaTime * 60), over the
   reals with real exponentiation. -/
noncomputable def dragFactor (drag dt : ℝ) : ℝ :=
  (1 - drag) ^ (dt * 60)

/- The velocity part of one physics step of gameLoop for one sprite:
   acceleration is applied to velocity, then the drag factor. -/
noncomputable def velStep (ax drag dt v : ℝ) : ℝ :=
  (v + ax * dt) * dragFactor drag dt

/- Velocity after n frames of fixed timestep dt. -/
noncomputable def velAfter (ax drag dt : ℝ) (n : ℕ) (v : ℝ) : ℝ :=
  (velStep ax drag dt)^[n] v

/- ===================== Console override serializer (console override script) ===================== -/

/- A JS value as seen by safeSerialize.  Objects and arrays live in a heap
   and are referenced by address so that cyclic object graphs are
   representable; everything else is immediate. -/
inductive JSVal where
  | jnull
  | jundef
  | jnum (q : ℚ)
  | jstr (s : String)
  | jbool (b : Bool)
  | jfun (name : String)
  | ref (addr : ℕ)

/- A heap object: possibly DOM-like (nodeType and nodeName present), an
   array (elems) or a plain object (fields as Object.keys order). -/
structure JSObj where
  nodeType : Option ℚ
  nodeName : Option String
  tagName : Option String
  domId : Option String
  className : Option String
  isArr : Bool
  elems : List JSVal
  fields : List (String × JSVal)

/- JSON.stringify(arg) ?? String(arg) on a primitive (number printing is
   abstracted by the canonical rational rendering). -/
def primSerialize : JSVal → String
  | JSVal.jnull => "null"
  | JSVal.jundef => "undefined"
  | JSVal.jnum q => toString q
  | JSVal.jstr s => "\"" ++ s ++ "\""
  | JSVal.jbool b => if b then "true" else "false"
  | JSVal.jfun _ => ""
  | JSVal.ref _ => ""

def isSkippableInternal (key : String) : Bool :=
  key.startsWith "__react" || key.startsWith "$$" || key = "_owner" || key = "_store"

def isLikelyDomNode (o : JSObj) : Bool :=
  o.nodeType.isSome && o.nodeName.isSome

/- The descriptor built for a quarantined DOM element:
   tagName?.toLowerCase() || node, plus #id and .class parts when truthy. -/
def domDescriptor (o : JSObj) : String :=
  let base :=
    match o.tagName with
    | some t => if t.toLower = "" then "node" else t.toLower
    | none => "node"
  let withId :=
    match o.domId with
    | some i => if i = "" then base else base ++ "#" ++ i
    | none => base
  match o.className with
  | some c =>
    if c = "" then withId
    else withId ++ "." ++ String.intercalate "." ((c.splitOn " ").filter (fun p => p ≠ ""))
  | none => withId

/- The recursive core of safeSerialize.  serializeOne serializes a single
   value; serializeAll serializes a list of values (array elements, object
   field values) threading the shared mutable seen set through sibling
   calls, exactly as the JS closure mutates one WeakSet across the whole
   call tree.  fuel bounds the recursion depth: a result of none means the
   fuel ran out, and the totality theorem shows heap size + 1 always
   suffices, because the seen-set guard makes deeper recursion impossible.
   A ref whose address is not in the heap cannot arise from a JS object
   graph; it serializes as the generic object placeholder. -/
mutual

def serializeOne (heap : List JSObj) : ℕ → JSVal → List ℕ → Option (String × List ℕ)
  | 0, _, _ => none
  | _ + 1, JSVal.jnull, seen => some ("null", seen)
  | _ + 1, JSVal.jundef, seen => some ("undefined", seen)
  | _ + 1, JSVal.jnum q, seen => some (primSerialize (JSVal.jnum q), seen)
  | _ + 1, JSVal.jstr s, seen => some (primSerialize (JSVal.jstr s), seen)
  | _ + 1, JSVal.jbool b, seen => some (primSerialize (JSVal.jbool b), seen)
  | _ + 1, JSVal.jfun name, seen =>
    some ("[Function Reference (Omitted): " ++ (if name = "" then "anonymous" else name) ++ "]",
          seen)
  | fuel + 1, JSVal.ref a, seen =>
    match heap[a]? with
    | none => some ("[Object]", seen)
    | some o =>
      if isLikelyDomNode o then
        some ("[Quarantined DOM Element: " ++ domDescriptor o ++ "]", seen)
      else if a ∈ seen then
        some ("[Quarantined Circular Reference]", seen)
      else
        if o.isArr then
          if o.elems.length = 0 then
            some ("[]", a :: seen)
          else
            match serializeAll heap fuel (o.elems.take 10) (a :: seen) with
            | none => none
            | some (parts, seen2) =>
              some ("[" ++ String.intercalate ", " parts ++
                    (if o.elems.length > 10 then ", ..." else "") ++ "]", seen2)
        else
          if o.fields.length = 0 then
            some ("\x7b\x7d", a :: seen)
          else
            let kept := (o.fields.take 10).filter (fun kv => ¬ isSkippableInternal kv.1)
            match serializeAll heap fuel (kept.map (fun kv => kv.2)) (a :: seen) with
            | none => none
            | some (parts, seen2) =>
              let entries := (kept.map (fun kv => kv.1)).zipWith
                (fun k s => "\"" ++ k ++ "\": " ++ s) parts
              some ("\x7b" ++ String.intercalate ", " entries ++
                    (if o.fields.length > 10 then ", ..." else "") ++ "\x7d", seen2)
termination_by fuel v seen => (fuel, 0)

def serializeAll (heap : List JSObj) : ℕ → List JSVal → List ℕ → Option (List String × List ℕ)
  | _, [], seen => some ([], seen)
  | fuel, v :: rest, seen =>
    match serializeOne heap fuel v seen with
    | none => none
    | some (s, seen1) =>
      match serializeAll heap fuel rest seen1 with
      | none => none
      | some (ss, seen2) => some (s :: ss, seen2)
termination_by fuel vs seen => (fuel, vs.length + 1)

end

/- safeSerialize(arg) with its fresh seen set; the fuel heap.length + 1 is
   always enough, by safeSerialize_total. -/
def safeSerialize (heap : List JSObj) (v : JSVal) : Option String :=
  match serializeOne heap (heap.length + 1) v [] with
  | some (s, _) => some s
  | none => none

/- The number of heap addresses not yet recorded in the seen set: the
   measure that bounds the remaining recursion depth of safeSerialize. -/
def unseenCount (heap : List JSObj) (seen : List ℕ) : ℕ :=
  ((Finset.range heap.length).filter (fun a => a ∉ seen)).card

/- ===================== Concrete fixtures used by witnesses ===================== -/

/- A game function that throws on input 0, used to exercise instrument. -/
def sampleThrowing (n : ℕ) : Except JsError ℕ :=
  if n = 0 then Except.error { stack := none, message := "boom" } else Except.ok n

/- The engine state right after module initialization. -/
def initEngineState : EngineState where
  sprites := []
  particles := []
  onUpdateCallback := UpdateCb.default
  camera := initCamera
  dataStore := []
  scenes := []

/- A concrete scene setup body: one sprite and one update callback. -/
def sceneCmdsW : List SceneCmd :=
  [SceneCmd.createSprite 5 {}, SceneCmd.setOnUpdate 7]

/- A concrete engine state: score stored, scene defined. -/
def sceneStateW : EngineState :=
  defineScene "main" sceneCmdsW (setData "score" 3 initEngineState)

/- A concrete quarantine incident naming an object id (42) that is absent
   from the registry below. -/
def qIncidentW : QIncident where
  suspect := "Data Integrity Check"
  message := "m"
  evidence := some { context := some { id := some 42 } }

/- A concrete engine state holding one sprite with id 1. -/
def quarStateW : EngineState :=
  (createSprite 1 {} initEngineState).1

/- ===================== Theorems ===================== -/

/-- Claim C5: checkCollision and checkCircularCollision are symmetric in
their two sprite arguments, and two axis-aligned boxes that exactly touch
at an edge (right edge of the first equals left edge of the second) do not
collide: the comparisons are strict. -/
theorem checkCollision_symm_and_edge (a b : Option Sprite) :
    checkCollision a b = checkCollision b a ∧
    (checkCircularCollision a b ↔ checkCircularCollision b a) ∧
    (∀ sa sb, a = some sa → b = some sb →
      sa.x + sa.width / 2 = sb.x - sb.width / 2 → checkCollision a b = false) := by
  refine ⟨?_, ?_, ?_⟩
  · cases a with
    | none => cases b <;> rfl
    | some sa =>
      cases b with
      | none => rfl
      | some sb =>
        simp only [checkCollision]
        exact decide_eq_decide.mpr
          (by constructor <;> (rintro ⟨h1, h2, h3, h4⟩; exact ⟨h2, h1, h4, h3⟩))
  · cases a with
    | none => cases b <;> exact Iff.rfl
    | some sa =>
      cases b with
      | none => exact Iff.rfl
      | some sb =>
        simp only [checkCircularCollision]
        rw [show ((sb.x - sa.x : ℚ) : ℝ) * ((sb.x - sa.x : ℚ) : ℝ) +
              ((sb.y - sa.y : ℚ) : ℝ) * ((sb.y - sa.y : ℚ) : ℝ) =
              ((sa.x - sb.x : ℚ) : ℝ) * ((sa.x - sb.x : ℚ) : ℝ) +
              ((sa.y - sb.y : ℚ) : ℝ) * ((sa.y - sb.y : ℚ) : ℝ) from by push_cast; ring,
            show effRadius sb + effRadius sa = effRadius sa + effRadius sb from add_comm _ _]
  · rintro sa sb rfl rfl hTouch
    simp only [checkCollision]
    apply decide_eq_false_iff_not.mpr
    rintro ⟨-, h2, -, -⟩
    rw [hTouch] at h2
    exact lt_irrefl _ h2

/-- Claim C5 witness: concrete sprite records, edge-touching, evaluated. -/
theorem checkCollision_symm_and_edge_witness :
    (mkSprite 1 {}).x + (mkSprite 1 {}).width / 2
      = (mkSprite 2 { x := some 32 }).x - (mkSprite 2 { x := some 32 }).width / 2 ∧
    checkCollision (some (mkSprite 1 {})) (some (mkSprite 2 { x := some 32 })) = false := by
  refine ⟨by norm_num [mkSprite], ?_⟩
  exact (checkCollision_symm_and_edge (some (mkSprite 1 {}))
    (some (mkSprite 2 { x := some 32 }))).2.2 _ _ rfl rfl (by norm_num [mkSprite])

/-- Claim C8: for a sprite created by Engine.create.sprite, running its
destroy closure (filter the registry by the captured id) twice leaves the
registry exactly as one call does; the second call is a total no-op rather
than an error. -/
theorem destroy_twice_eq_once (rnd : ℚ) (cfg : SpriteConfig) (st st2 : EngineState) :
    destroySprite ((createSprite rnd cfg st).2).id
        (destroySprite ((createSprite rnd cfg st).2).id st2)
      = destroySprite ((createSprite rnd cfg st).2).id st2 := by
  simp [destroySprite, List.filter_filter]

/-- Claim C7 counterexample: with lastTime initialized to 0, the first
frame computes deltaTime = timestamp / 1000, which is not zero for the
concrete first timestamp 1000. -/
theorem gameLoopDelta_firstFrame_counterexample :
    gameLoopDelta 1000 lastTimeInit ≠ 0 := by
  norm_num [gameLoopDelta, jsOrElse, lastTimeInit]

/-- Claim C7 amended: on the very first gameLoop invocation the computed
delta is timestamp / 1000 (lastTime starts at 0), so it is zero exactly
when the first timestamp is zero; the trailing or-zero only normalizes a
zero (or NaN) difference. -/
theorem gameLoopDelta_firstFrame (t : ℚ) :
    gameLoopDelta t lastTimeInit = t / 1000 ∧ (gameLoopDelta t lastTimeInit = 0 ↔ t = 0) := by
  simp only [gameLoopDelta, jsOrElse, lastTimeInit, sub_zero]
  constructor
  · split_ifs with h
    · exact h.symm
    · rfl
  · split_ifs with h
    · have ht : t = 0 := by
        rcases div_eq_zero_iff.mp h with ht | hbad
        · exact ht
        · norm_num at hbad
      simp [ht]
    · constructor
      · intro hz; exact absurd hz h
      · intro hz; rw [hz] at h; simp at h

/-- Claim C4: instrument(name, fn) returns exactly what fn returns, and on
a thrown exception makes exactly one reportIncident call, with threat level
trusted, suspect Exception in name, and the errorMessage derived from the
error, then re-throws the same error. -/
theorem instrument_transparent {α β : Type} (functionName : String)
    (originalFn : α → Except JsError β) (args : α) :
    (instrument functionName originalFn args).1 = originalFn args ∧
    (∀ e, originalFn args = Except.error e →
      (instrument functionName originalFn args).2 =
        [{ threatLevel := "trusted", suspect := "Exception in " ++ functionName,
           message := errorMessageOf e }]) ∧
    (∀ v, originalFn args = Except.ok v →
      (instrument functionName originalFn args).2 = []) := by
  cases h : originalFn args with
  | ok v =>
    refine ⟨by simp [instrument, h], ?_, ?_⟩
    · intro e he; cases he
    · intro w hw; simp [instrument, h]
  | error e =>
    refine ⟨by simp [instrument, h], ?_, ?_⟩
    · intro e' he'; cases he'; simp [instrument, h]
    · intro w hw; cases hw

/-- Claim C4 witness: a concrete throwing call and a concrete succeeding
call through instrument. -/
theorem instrument_transparent_witness :
    (instrument "f" sampleThrowing 0).1 = sampleThrowing 0 ∧
    (instrument "f" sampleThrowing 0).2 =
      [{ threatLevel := "trusted", suspect := "Exception in f", message := "boom" }] ∧
    (instrument "f" sampleThrowing 1).2 = [] := by
  refine ⟨(instrument_transparent "f" sampleThrowing 0).1, ?_, ?_⟩
  · exact (instrument_transparent "f" sampleThrowing 0).2.1
      { stack := none, message := "boom" } rfl
  · exact (instrument_transparent "f" sampleThrowing 1).2.2 1 rfl

/-- Claim C1 counterexample: the dedup key is the string concatenation of
the triple, so the distinct triples (a, b, c) and (ab, empty, c) collide;
after reporting the first, reporting the second posts nothing even though
no incident with that triple was ever recorded, refuting deduplication by
the triple itself. -/
theorem reportIncident_tripleKey_counterexample :
    (reportIncident (reportIncident { incidents := [] } "a" "b" "c").1 "ab" "" "c").2 = [] ∧
    ("ab", "", "c") ≠ ("a", "b", "c") := by
  constructor
  · rfl
  · decide

/-- Claim C1 amended: with the composite key read as the concatenated
string threatLevel ++ suspect ++ message (the hash the code stores), a
reported incident whose key is already in the rolling set posts nothing and
leaves the set unchanged; a new key posts exactly one payload; the set
never grows beyond 100 keys; and the 101st distinct key evicts the oldest
tracked key. -/
theorem reportIncident_dedup (st : GuardState) (tl sus msg : String)
    (hcap : st.incidents.length ≤ 100) :
    (incidentHash tl sus msg ∈ st.incidents → reportIncident st tl sus msg = (st, [])) ∧
    (incidentHash tl sus msg ∉ st.incidents →
      (reportIncident st tl sus msg).2 =
        [{ threatLevel := tl, suspect := sus, message := msg }]) ∧
    (reportIncident st tl sus msg).1.incidents.length ≤ 100 ∧
    (incidentHash tl sus msg ∉ st.incidents → st.incidents.length = 100 →
      (reportIncident st tl sus msg).1.incidents
        = st.incidents.tail ++ [incidentHash tl sus msg]) := by
  refine ⟨?_, ?_, ?_, ?_⟩
  · intro hmem
    simp [reportIncident, hmem]
  · intro hmem
    simp [reportIncident, hmem]
  · by_cases hmem : incidentHash tl sus msg ∈ st.incidents
    · simp [reportIncident, hmem, hcap]
    · simp only [reportIncident, hmem, if_neg, if_false]
      split_ifs with hlen
      · simp only [List.length_tail, List.length_append, List.length_singleton]
        omega
      · simp only [List.length_append, List.length_singleton] at hlen ⊢
        omega
  · intro hmem hlen
    simp only [reportIncident, hmem, if_false]
    have hgt : (st.incidents ++ [incidentHash tl sus msg]).length > 100 := by
      simp [hlen]
    simp only [hgt, if_true]
    cases hst : st.incidents with
    | nil => rw [hst] at hlen; simp at hlen
    | cons a rest => simp

/-- Claim C1 amended witness: a duplicate key on a one-element set posts
nothing and leaves the set unchanged. -/
theorem reportIncident_dedup_witness :
    reportIncident { incidents := ["abc"] } "a" "b" "c" = ({ incidents := ["abc"] }, []) :=
  (reportIncident_dedup { incidents := ["abc"] } "a" "b" "c" (by decide)).1 (by decide)

/-- Helper: iterating multiplication by a constant. -/
theorem iterate_mul_const (c : ℝ) : ∀ (n : ℕ) (v : ℝ), (fun x => x * c)^[n] v = v * c ^ n := by
  intro n
  induction n with
  | zero => intro v; simp
  | succ k ih =>
    intro v
    rw [Function.iterate_succ_apply, ih]
    ring

/-- Claim C6: with zero acceleration and a drag coefficient in the unit
interval, one second of the per-frame velocity update (multiply by
pow(1 - drag, dt * 60)) gives exactly the same velocity when simulated as
60 steps of dt = 1/60 and as 30 steps of dt = 1/30: the drag exponents sum
to 60 either way. -/
theorem drag_framerate_independent (drag v : ℝ) (h0 : 0 ≤ drag) (h1 : drag < 1) :
    velAfter 0 drag (1/60) 60 v = velAfter 0 drag (1/30) 30 v := by
  have hstep : ∀ dt : ℝ, velStep 0 drag dt = fun x => x * dragFactor drag dt := by
    intro dt; funext x; simp [velStep]
  unfold velAfter
  rw [hstep (1/60), hstep (1/30), iterate_mul_const, iterate_mul_const]
  have h60 : dragFactor drag (1/60) = (1 - drag) ^ (1 : ℕ) := by
    unfold dragFactor
    rw [show (1/60 : ℝ) * 60 = ((1 : ℕ) : ℝ) from by norm_num, Real.rpow_natCast]
  have h30 : dragFactor drag (1/30) = (1 - drag) ^ (2 : ℕ) := by
    unfold dragFactor
    rw [show (1/30 : ℝ) * 60 = ((2 : ℕ) : ℝ) from by norm_num, Real.rpow_natCast]
  rw [h60, h30, ← pow_mul, ← pow_mul]

/-- Claim C6 witness: concrete drag one half and unit initial velocity. -/
theorem drag_framerate_independent_witness :
    (0 : ℝ) ≤ 1/2 ∧ (1/2 : ℝ) < 1 ∧
    velAfter 0 (1/2) (1/60) 60 1 = velAfter 0 (1/2) (1/30) 30 1 :=
  ⟨by norm_num, by norm_num,
   drag_framerate_independent (1/2) 1 (by norm_num) (by norm_num)⟩

/-- Helper: running a setup body appends exactly the created sprites. -/
theorem runCmds_sprites : ∀ (cmds : List SceneCmd) (st : EngineState),
    (runCmds st cmds).sprites = st.sprites ++ cmdSprites cmds := by
  intro cmds
  induction cmds with
  | nil => intro st; simp [runCmds, cmdSprites]
  | cons c rest ih =>
    intro st
    have hstep : runCmds st (c :: rest) = runCmds (runCmd st c) rest := rfl
    rw [hstep, ih]
    cases c with
    | createSprite rnd cfg => simp [runCmd, createSprite, cmdSprites]
    | createParticles cfg draws => simp [runCmd, createParticles, cmdSprites]
    | setOnUpdate tag => simp [runCmd, setOnUpdate, cmdSprites]

/-- Helper: running a setup body appends exactly the created particles. -/
theorem runCmds_particles : ∀ (cmds : List SceneCmd) (st : EngineState),
    (runCmds st cmds).particles = st.particles ++ cmdParticles cmds := by
  intro cmds
  induction cmds with
  | nil => intro st; simp [runCmds, cmdParticles]
  | cons c rest ih =>
    intro st
    have hstep : runCmds st (c :: rest) = runCmds (runCmd st c) rest := rfl
    rw [hstep, ih]
    cases c with
    | createSprite rnd cfg => simp [runCmd, createSprite, cmdParticles]
    | createParticles cfg draws => simp [runCmd, createParticles, cmdParticles]
    | setOnUpdate tag => simp [runCmd, setOnUpdate, cmdParticles]

/-- Helper: the callback left by a setup body. -/
theorem runCmds_callback : ∀ (cmds : List SceneCmd) (st : EngineState),
    (runCmds st cmds).onUpdateCallback = cmdCallback st.onUpdateCallback cmds := by
  intro cmds
  induction cmds with
  | nil => intro st; simp [runCmds, cmdCallback]
  | cons c rest ih =>
    intro st
    have hstep : runCmds st (c :: rest) = runCmds (runCmd st c) rest := rfl
    rw [hstep, ih]
    cases c with
    | createSprite rnd cfg => simp [runCmd, createSprite, cmdCallback]
    | createParticles cfg draws => simp [runCmd, createParticles, cmdCallback]
    | setOnUpdate tag => simp [runCmd, setOnUpdate, cmdCallback]

/-- Helper: setup bodies touch neither the camera nor the data store. -/
theorem runCmds_camera_dataStore : ∀ (cmds : List SceneCmd) (st : EngineState),
    (runCmds st cmds).camera = st.camera ∧ (runCmds st cmds).dataStore = st.dataStore := by
  intro cmds
  induction cmds with
  | nil => intro st; exact ⟨rfl, rfl⟩
  | cons c rest ih =>
    intro st
    have hstep : runCmds st (c :: rest) = runCmds (runCmd st c) rest := rfl
    rw [hstep]
    rcases ih (runCmd st c) with ⟨hc, hd⟩
    rw [hc, hd]
    cases c with
    | createSprite rnd cfg => exact ⟨rfl, rfl⟩
    | createParticles cfg draws => exact ⟨rfl, rfl⟩
    | setOnUpdate tag => exact ⟨rfl, rfl⟩

/-- Claim C3: loading a defined scene leaves the registry holding exactly
the sprites created by its setup body, the particle list holding exactly
the particles it created, the update callback being the last one it
registered (or the default no-op), the camera reset, and every key/value
pair stored via setData before the load still readable via getData. -/
theorem loadScene_resets (st : EngineState) (name : String) (cmds : List SceneCmd)
    (hdef : st.scenes.lookup name = some cmds) :
    (loadScene name st).1.sprites = cmdSprites cmds ∧
    (loadScene name st).1.particles = cmdParticles cmds ∧
    (loadScene name st).1.onUpdateCallback = cmdCallback UpdateCb.default cmds ∧
    (loadScene name st).1.camera = initCamera ∧
    ∀ k, getData k (loadScene name st).1 = getData k st := by
  have hload : (loadScene name st).1 = runCmds (resetSceneState st) cmds := by
    simp [loadScene, hdef]
  rw [hload]
  refine ⟨?_, ?_, ?_, ?_, ?_⟩
  · rw [runCmds_sprites]; simp [resetSceneState]
  · rw [runCmds_particles]; simp [resetSceneState]
  · rw [runCmds_callback]; simp [resetSceneState]
  · rw [(runCmds_camera_dataStore cmds (resetSceneState st)).1]; simp [resetSceneState]
  · intro k
    unfold getData
    rw [(runCmds_camera_dataStore cmds (resetSceneState st)).2]
    simp [resetSceneState]

/-- Claim C3 witness: a concrete defined scene, loaded. -/
theorem loadScene_resets_witness :
    sceneStateW.scenes.lookup "main" = some sceneCmdsW ∧
    (loadScene "main" sceneStateW).1.sprites = cmdSprites sceneCmdsW ∧
    (loadScene "main" sceneStateW).1.particles = cmdParticles sceneCmdsW ∧
    (loadScene "main" sceneStateW).1.onUpdateCallback = cmdCallback UpdateCb.default sceneCmdsW ∧
    (loadScene "main" sceneStateW).1.camera = initCamera ∧
    getData "score" (loadScene "main" sceneStateW).1 = getData "score" sceneStateW := by
  have h := loadScene_resets sceneStateW "main" sceneCmdsW rfl
  exact ⟨rfl, h.1, h.2.1, h.2.2.1, h.2.2.2.1, h.2.2.2.2 "score"⟩

/-- Claim C10: loading an undefined scene name is a total operation that
emits exactly one error log and returns the engine state unchanged in every
component: no reset happens on this path. -/
theorem loadScene_undefined (st : EngineState) (name : String)
    (hundef : st.scenes.lookup name = none) :
    loadScene name st =
      (st, [{ level := LogLevel.error, message := "Scene '" ++ name ++ "' is not defined." }]) := by
  simp [loadScene, hundef]

/-- Claim C10 witness: loading a name never defined on the fresh engine
state. -/
theorem loadScene_undefined_witness :
    loadScene "nope" initEngineState =
      (initEngineState,
       [{ level := LogLevel.error, message := "Scene 'nope' is not defined." }]) :=
  loadScene_undefined initEngineState "nope" rfl

/-- Claim C9: a quarantine incident whose evidence context carries an
object id that no live sprite has is processed without error and without
any registry mutation: the engine state is returned untouched. -/
theorem quarantine_missing_id_noop (inc : Option QIncident) (st : EngineState)
    (i : QIncident) (ev : QEvidence) (ctx : QContext) (q : ℚ)
    (hinc : inc = some i) (hev : i.evidence = some ev) (hctx : ev.context = some ctx)
    (hid : ctx.id = some q) (habsent : ∀ s ∈ st.sprites, s.id ≠ q) :
    (quarantineAction inc st).1 = st := by
  subst hinc
  have hfind : st.sprites.find? (fun s => decide (some s.id = ctx.id)) = none := by
    apply List.find?_eq_none.mpr
    intro s hs
    simp only [hid, decide_eq_true_eq, Option.some_inj]
    exact habsent s hs
  by_cases hsus : i.suspect = ""
  · simp [quarantineAction, hsus]
  · by_cases htru : truthyId ctx.id = true
    · simp [quarantineAction, hsus, hev, hctx, htru, hfind]
    · simp [quarantineAction, hsus, hev, hctx, htru, hfind]

/-- Helper: a fresh seen set leaves the whole heap unseen. -/
theorem unseenCount_nil (heap : List JSObj) : unseenCount heap [] = heap.length := by
  simp [unseenCount]

/-- Helper: extending the seen set cannot increase the unseen count. -/
theorem unseenCount_le_of_subset (heap : List JSObj) (s1 s2 : List ℕ) (h : s1 ⊆ s2) :
    unseenCount heap s2 ≤ unseenCount heap s1 := by
  apply Finset.card_le_card
  intro x hx
  simp only [Finset.mem_filter, Finset.mem_range] at hx ⊢
  exact ⟨hx.1, fun hm => hx.2 (h hm)⟩

/-- Helper: marking a fresh in-range address strictly shrinks the unseen
count. -/
theorem unseenCount_cons_lt (heap : List JSObj) (seen : List ℕ) (a : ℕ)
    (ha : a < heap.length) (hnot : a ∉ seen) :
    unseenCount heap (a :: seen) < unseenCount heap seen := by
  apply Finset.card_lt_card
  have hsub : (Finset.range heap.length).filter (fun x => x ∉ a :: seen) ⊆
      (Finset.range heap.length).filter (fun x => x ∉ seen) := by
    intro x hx
    simp only [Finset.mem_filter, Finset.mem_range, List.mem_cons] at hx ⊢
    exact ⟨hx.1, fun hm => hx.2 (Or.inr hm)⟩
  refine (Finset.ssubset_iff_of_subset hsub).mpr ⟨a, ?_, ?_⟩
  · simp [ha, hnot]
  · simp

/-- Helper: with fuel exceeding the count of unseen heap addresses,
serializeOne and serializeAll always succeed, only ever grow the seen set,
and serializeAll renders one string per input value. -/
theorem serialize_total (heap : List JSObj) : ∀ fuel : ℕ,
    (∀ v seen, unseenCount heap seen < fuel →
      ∃ s seen2, serializeOne heap fuel v seen = some (s, seen2) ∧ seen ⊆ seen2) ∧
    (∀ vs seen, unseenCount heap seen < fuel →
      ∃ ss seen2, serializeAll heap fuel vs seen = some (ss, seen2) ∧
        ss.length = vs.length ∧ seen ⊆ seen2) := by
  intro fuel
  induction fuel with
  | zero =>
    constructor
    · intro v seen h; exact absurd h (Nat.not_lt_zero _)
    · intro vs seen h; exact absurd h (Nat.not_lt_zero _)
  | succ f ihf =>
    have hone : ∀ v seen, unseenCount heap seen < f + 1 →
        ∃ s seen2, serializeOne heap (f + 1) v seen = some (s, seen2) ∧ seen ⊆ seen2 := by
      intro v seen hs
      cases v with
      | jnull => exact ⟨"null", seen, by simp [serializeOne], List.Subset.refl _⟩
      | jundef => exact ⟨"undefined", seen, by simp [serializeOne], List.Subset.refl _⟩
      | jnum q =>
        exact ⟨primSerialize (JSVal.jnum q), seen, by simp [serializeOne], List.Subset.refl _⟩
      | jstr s =>
        exact ⟨primSerialize (JSVal.jstr s), seen, by simp [serializeOne], List.Subset.refl _⟩
      | jbool b =>
        exact ⟨primSerialize (JSVal.jbool b), seen, by simp [serializeOne], List.Subset.refl _⟩
      | jfun name =>
        exact ⟨"[Function Reference (Omitted): " ++ (if name = "" then "anonymous" else name)
          ++ "]", seen, by simp [serializeOne], List.Subset.refl _⟩
      | ref a =>
        cases hga : heap[a]? with
        | none =>
          have heq : serializeOne heap (f + 1) (JSVal.ref a) seen = some ("[Object]", seen) := by
            simp [serializeOne, hga]
          exact ⟨_, _, heq, List.Subset.refl _⟩
        | some o =>
          have halt : a < heap.length := by
            by_contra hlen
            rw [List.getElem?_eq_none (Nat.le_of_not_lt hlen)] at hga
            cases hga
          by_cases hdom : isLikelyDomNode o
          · have heq : serializeOne heap (f + 1) (JSVal.ref a) seen =
                some ("[Quarantined DOM Element: " ++ domDescriptor o ++ "]", seen) := by
              simp [serializeOne, hga, hdom]
            exact ⟨_, _, heq, List.Subset.refl _⟩
          · by_cases hmem : a ∈ seen
            · have heq : serializeOne heap (f + 1) (JSVal.ref a) seen =
                  some ("[Quarantined Circular Reference]", seen) := by
                simp [serializeOne, hga, hdom, hmem]
              exact ⟨_, _, heq, List.Subset.refl _⟩
            · have hlt : unseenCount heap (a :: seen) < f :=
                lt_of_lt_of_le (unseenCount_cons_lt heap seen a halt hmem) (Nat.lt_succ_iff.mp hs)
              have hsub0 : seen ⊆ a :: seen := List.subset_cons_self _ _
              by_cases harr : o.isArr
              · by_cases hlen0 : o.elems.length = 0
                · have heq : serializeOne heap (f + 1) (JSVal.ref a) seen =
                      some ("[]", a :: seen) := by
                    simp [serializeOne, hga, hdom, hmem, harr, hlen0]
                  exact ⟨_, _, heq, hsub0⟩
                · obtain ⟨parts, seen2, hserk, hlenk, hsubk⟩ :=
                    ihf.2 (o.elems.take 10) (a :: seen) hlt
                  have heq : serializeOne heap (f + 1) (JSVal.ref a) seen =
                      some ("[" ++ String.intercalate ", " parts ++
                        (if o.elems.length > 10 then ", ..." else "") ++ "]", seen2) := by
                    simp [serializeOne, hga, hdom, hmem, harr, hlen0, hserk]
                  exact ⟨_, _, heq, hsub0.trans hsubk⟩
              · by_cases hlen0 : o.fields.length = 0
                · have heq : serializeOne heap (f + 1) (JSVal.ref a) seen =
                      some ("\x7b\x7d", a :: seen) := by
                    simp [serializeOne, hga, hdom, hmem, harr, hlen0]
                  exact ⟨_, _, heq, hsub0⟩
                · obtain ⟨parts, seen2, hserk, hlenk, hsubk⟩ :=
                    ihf.2 ((((o.fields.take 10)).filter
                      (fun kv => !isSkippableInternal kv.1)).map (fun kv => kv.2))
                      (a :: seen) hlt
                  have heq : serializeOne heap (f + 1) (JSVal.ref a) seen =
                      some ("\x7b" ++ String.intercalate ", "
                          ((((o.fields.take 10).filter
                            (fun kv => !isSkippableInternal kv.1)).map (fun kv => kv.1)).zipWith
                            (fun k s => "\"" ++ k ++ "\": " ++ s) parts) ++
                        (if o.fields.length > 10 then ", ..." else "") ++ "\x7d", seen2) := by
                    simp [serializeOne, hga, hdom, hmem, harr, hlen0, hserk]
                  exact ⟨_, _, heq, hsub0.trans hsubk⟩
    have hall : ∀ vs seen, unseenCount heap seen < f + 1 →
        ∃ ss seen2, serializeAll heap (f + 1) vs seen = some (ss, seen2) ∧
          ss.length = vs.length ∧ seen ⊆ seen2 := by
      intro vs
      induction vs with
      | nil =>
        intro seen h
        exact ⟨[], seen, by simp [serializeAll], rfl, List.Subset.refl _⟩
      | cons v rest ihv =>
        intro seen h
        obtain ⟨s, seen1, h1, hsub1⟩ := hone v seen h
        have hle : unseenCount heap seen1 ≤ unseenCount heap seen :=
          unseenCount_le_of_subset heap seen seen1 hsub1
        obtain ⟨ss2, seen2, h2, hlen2, hsub2⟩ := ihv seen1 (lt_of_le_of_lt hle h)
        refine ⟨s :: ss2, seen2, ?_, by simp [hlen2], hsub1.trans hsub2⟩
        simp [serializeAll, h1, h2]
    exact ⟨hone, hall⟩

/-- Claim C2: for every heap of JS objects and every value over it — with
cyclic object graphs, DOM-like nodes, arrays and objects beyond the 10
element truncation cap, functions, undefined and null all representable —
safeSerialize returns a string: the recursion always terminates within
heap size + 1 depth and every branch yields a string, so the serializer
cannot raise. -/
theorem safeSerialize_total (heap : List JSObj) (v : JSVal) :
    (safeSerialize heap v).isSome = true := by
  obtain ⟨s, seen2, heq, -⟩ :=
    (serialize_total heap (heap.length + 1)).1 v []
      (by rw [unseenCount_nil]; exact Nat.lt_succ_self _)
  simp [safeSerialize, heq]

/-- Claim C9 witness: a registry holding only sprite id 1, quarantining an
incident that names id 42. -/
theorem quarantine_missing_id_noop_witness :
    qIncidentW.evidence = some { context := some { id := some 42 } } ∧
    (∀ s ∈ quarStateW.sprites, s.id ≠ (42 : ℚ)) ∧
    (quarantineAction (some qIncidentW) quarStateW).1 = quarStateW := by
  have habsent : ∀ s ∈ quarStateW.sprites, s.id ≠ (42 : ℚ) := by
    intro s hs
    simp only [quarStateW, createSprite, initEngineState, List.nil_append,
      List.mem_singleton] at hs
    subst hs
    norm_num [mkSprite]
  exact ⟨rfl, habsent,
    quarantine_missing_id_noop (some qIncidentW) quarStateW qIncidentW
      { context := some { id := some 42 } } { id := some 42 } 42 rfl rfl rfl rfl habsent⟩
